import Mathlib

/-!
# Verification of the quantum_scanner command-line front end and report formatter

This development embeds the pure content of `src/main.rs` and `src/output.rs`
of the `quantum_scanner` repository into Lean and proves properties of the
embedded functions.

Modelling conventions:
* Rust `String`/`str` values are modelled as `List Char` (`RStr`), so that all
  string manipulation is structurally recursive and kernel-computable.
* The file system is modelled as an association list from paths to file
  contents (`FS`); `fsLookup`/`fsInsert`/`fsRemove` are the read, write and
  delete primitives.  Only regular files are represented: a path that is
  absent from the map models a path that does not exist or is not a regular
  file.
* `rand::thread_rng().gen_range(lo..hi)` is modelled by a function of an
  arbitrary natural draw: it returns `lo + draw % (hi - lo)` when `lo < hi`
  and fails (the Rust call panics) when the range is empty.  This captures
  exactly the set of values the half-open `gen_range` can produce.
-/

abbrev RStr := List Char

abbrev FS := List (RStr × RStr)

/-- Look a path up in the modelled file system. -/
def fsLookup : FS → RStr → Option RStr
  | [], _ => none
  | (p, c) :: rest, q => if p = q then some c else fsLookup rest q

/-- Write a file (create or overwrite). -/
def fsInsert (fs : FS) (p c : RStr) : FS := (p, c) :: fs

/-- Delete a file. -/
def fsRemove : FS → RStr → FS
  | [], _ => []
  | (p, c) :: rest, q => if p = q then fsRemove rest q else (p, c) :: fsRemove rest q

theorem fsLookup_fsInsert_self (fs : FS) (p c : RStr) :
    fsLookup (fsInsert fs p c) p = some c := by
  simp [fsInsert, fsLookup]

theorem fsLookup_fsInsert_ne (fs : FS) (p c q : RStr) (h : p ≠ q) :
    fsLookup (fsInsert fs p c) q = fsLookup fs q := by
  simp [fsInsert, fsLookup, h]

theorem fsLookup_fsRemove (fs : FS) (p q : RStr) :
    fsLookup (fsRemove fs p) q = if p = q then none else fsLookup fs q := by
  induction fs with
  | nil => simp [fsRemove, fsLookup]
  | cons hd tl ih =>
    obtain ⟨p', c'⟩ := hd
    by_cases h1 : p = p'
    · subst h1
      by_cases h2 : p = q
      · subst h2
        simp [fsRemove, fsLookup, ih]
      · simp [fsRemove, fsLookup, h2, ih]
    · by_cases h2 : p' = q
      · subst h2
        simp [fsRemove, fsLookup, h1, ih, Ne.symm h1]
      · simp [fsRemove, fsLookup, h1, h2, ih, Ne.symm h1]

/-! ## String primitives

`countMatches` and `rstrReplace` embed the Rust calls `str::matches(pat).count()` and
`str::replace(pat, rep)`: both walk the string left to right and act on
non-overlapping occurrences of the pattern.  The recursion is driven by a
fuel argument initialised with the string length, which bounds the number of
steps; each step either consumes the matched pattern (at least one character,
since the pattern of interest is non-empty) or one character. -/

/-- One left-to-right replacement pass; `fuel` bounds the recursion depth. -/
def replaceAux (pat rep : RStr) : Nat → RStr → RStr
  | _, [] => []
  | 0, s => s
  | fuel + 1, c :: rest =>
    if pat.isPrefixOf (c :: rest) then
      rep ++ replaceAux pat rep fuel (List.drop pat.length (c :: rest))
    else
      c :: replaceAux pat rep fuel rest

/-- Embedding of Rust `str::replace`: replace every (leftmost, non-overlapping)
occurrence of `pat` in `s` by `rep`. -/
def rstrReplace (s pat rep : RStr) : RStr := replaceAux pat rep s.length s

/-- Count occurrences, same traversal as `replaceAux`. -/
def countAux (pat : RStr) : Nat → RStr → Nat
  | _, [] => 0
  | 0, _ => 0
  | fuel + 1, c :: rest =>
    if pat.isPrefixOf (c :: rest) then
      countAux pat fuel (List.drop pat.length (c :: rest)) + 1
    else
      countAux pat fuel rest

/-- Embedding of Rust `str::matches(pat).count()`. -/
def countMatches (s pat : RStr) : Nat := countAux pat s.length s

/-- The literal `"[REDACTED]"` searched for by `fix_redacted_log`. -/
def redactedPat : RStr := "[REDACTED]".data

/-! ## `fix_redacted_log` (src/main.rs lines 769–799)

```rust
fn fix_redacted_log(log_file: &PathBuf, ip_address: &str) -> Result<usize> {
    if !log_file.exists() { return Err(...); }
    // read content
    let redacted_count = content.matches("[REDACTED]").count();
    if redacted_count == 0 { return Ok(0); }
    let backup_path = format!("{}.bak", log_file.display());
    fs::copy(log_file, &backup_path)?;
    let updated_content = content.replace("[REDACTED]", ip_address);
    // write updated_content back to log_file
    Ok(redacted_count)
}
```

The embedding threads the file system explicitly and returns the count
together with the final file system. -/
def fix_redacted_log (fs : FS) (log_file ip_address : RStr) :
    Except RStr (Nat × FS) :=
  match fsLookup fs log_file with
  | none => .error ("Log file not found: ".data ++ log_file)
  | some content =>
    let redacted_count := countMatches content redactedPat
    if redacted_count = 0 then
      .ok (0, fs)
    else
      let backup_path := log_file ++ ".bak".data
      let fs1 := fsInsert fs backup_path content
      let updated_content := rstrReplace content redactedPat ip_address
      .ok (redacted_count, fsInsert fs1 log_file updated_content)

/-! ## `secure_delete_file` (src/main.rs lines 681–766)

The function first returns `Ok(())` when the path does not exist or is not a
regular file; then rejects paths containing shell metacharacters; then
overwrites the file contents `passes` times and finally removes the file.
The intermediate overwrites are not observable in the final file system, which
is what the embedding returns alongside the `Result`. -/
def secure_delete_file (fs : FS) (path : RStr) (passes : Nat) :
    Except RStr Unit × FS :=
  match fsLookup fs path with
  | none => (.ok (), fs)
  | some _ =>
    if path.contains ';' || path.contains '&' || path.contains '|' ||
       path.contains '>' || path.contains '<' || path.contains '$' then
      (.error "Invalid characters in file path".data, fs)
    else
      -- `passes` overwrite passes, then `fs::remove_file`
      let _ := passes
      (.ok (), fsRemove fs path)

theorem ne_append_bak (p : RStr) : p ≠ p ++ ".bak".data := by
  intro h
  have hlen := congrArg List.length h
  simp [List.length_append] at hlen

/-- C1: on a log file whose content holds at least one occurrence of
`[REDACTED]`, `fix_redacted_log` succeeds, returns the occurrence count,
stores the content with every occurrence replaced by the target string at the
original path, stores the original content at the path extended with `.bak`,
and touches no other file. -/
theorem fix_redacted_log_replaces (fs : FS) (path target content : RStr)
    (hfind : fsLookup fs path = some content)
    (hocc : 0 < countMatches content redactedPat) :
    ∃ fs', fix_redacted_log fs path target
        = .ok (countMatches content redactedPat, fs')
      ∧ fsLookup fs' path = some (rstrReplace content redactedPat target)
      ∧ fsLookup fs' (path ++ ".bak".data) = some content
      ∧ ∀ q, q ≠ path → q ≠ path ++ ".bak".data → fsLookup fs' q = fsLookup fs q := by
  refine ⟨fsInsert (fsInsert fs (path ++ ".bak".data) content) path
      (rstrReplace content redactedPat target), ?_, ?_, ?_, ?_⟩
  · simp [fix_redacted_log, hfind, Nat.pos_iff_ne_zero.mp hocc]
  · exact fsLookup_fsInsert_self _ _ _
  · rw [fsLookup_fsInsert_ne _ _ _ _ (ne_append_bak path)]
    exact fsLookup_fsInsert_self _ _ _
  · intro q hq1 hq2
    rw [fsLookup_fsInsert_ne _ _ _ _ (fun h => hq1 h.symm),
        fsLookup_fsInsert_ne _ _ _ _ (fun h => hq2 h.symm)]

/-- Witness for C1 at the example given in the spec: `"connect to [REDACTED]"` with
target `10.0.0.1`. -/
theorem fix_redacted_log_replaces_witness :
    ∃ fs', fix_redacted_log [("scanner.log".data, "connect to [REDACTED]".data)]
        "scanner.log".data "10.0.0.1".data
        = .ok (countMatches "connect to [REDACTED]".data redactedPat, fs')
      ∧ fsLookup fs' "scanner.log".data
          = some (rstrReplace "connect to [REDACTED]".data redactedPat "10.0.0.1".data)
      ∧ fsLookup fs' ("scanner.log".data ++ ".bak".data)
          = some "connect to [REDACTED]".data
      ∧ ∀ q, q ≠ "scanner.log".data → q ≠ "scanner.log".data ++ ".bak".data →
          fsLookup fs' q
            = fsLookup [("scanner.log".data, "connect to [REDACTED]".data)] q :=
  fix_redacted_log_replaces _ _ "10.0.0.1".data "connect to [REDACTED]".data
    (by decide) (by decide)

/-- The replacement applied in the witness of C1 indeed produces the content
expected by the spec. -/
theorem fix_redacted_log_example_content :
    rstrReplace "connect to [REDACTED]".data redactedPat "10.0.0.1".data
      = "connect to 10.0.0.1".data := by decide

/-- C9: on an existing log file with no occurrence of `[REDACTED]`,
`fix_redacted_log` returns 0 and leaves the file system entirely unchanged
(in particular no `.bak` file is created and the log file keeps its
contents). -/
theorem fix_redacted_log_no_redactions (fs : FS) (path target content : RStr)
    (hfind : fsLookup fs path = some content)
    (hnone : countMatches content redactedPat = 0) :
    fix_redacted_log fs path target = .ok (0, fs) := by
  simp [fix_redacted_log, hfind, hnone]

/-- Witness for C9 on a file without redactions. -/
theorem fix_redacted_log_no_redactions_witness :
    fix_redacted_log [("scanner.log".data, "connect to 10.0.0.1".data)]
        "scanner.log".data "10.0.0.1".data
      = .ok (0, [("scanner.log".data, "connect to 10.0.0.1".data)]) :=
  fix_redacted_log_no_redactions _ _ _ "connect to 10.0.0.1".data
    (by decide) (by decide)

/-- C10: `secure_delete_file` returns `Ok` and changes nothing when the path
is not an existing regular file, and fails without touching the file system
when the path of an existing file contains one of the shell metacharacters
`;`, `&`, `|`, `>`, `<`, `$`. -/
theorem secure_delete_file_guards (fs : FS) (path : RStr) (passes : Nat) :
    (fsLookup fs path = none → secure_delete_file fs path passes = (.ok (), fs))
    ∧ (∀ content, fsLookup fs path = some content →
        (path.contains ';' || path.contains '&' || path.contains '|' ||
         path.contains '>' || path.contains '<' || path.contains '$') = true →
        secure_delete_file fs path passes
          = (.error "Invalid characters in file path".data, fs)) := by
  constructor
  · intro h
    simp [secure_delete_file, h]
  · intro content h hbad
    simp at hbad
    simp [secure_delete_file, h]
    tauto

/-- Witness for C10: a missing path, and an existing file whose path holds a
`;`. -/
theorem secure_delete_file_guards_witness :
    secure_delete_file [] "scanner.log".data 3 = (.ok (), [])
    ∧ secure_delete_file [("a;b".data, "data".data)] "a;b".data 3
        = (.error "Invalid characters in file path".data,
           [("a;b".data, "data".data)]) :=
  ⟨(secure_delete_file_guards [] "scanner.log".data 3).1 (by decide),
   (secure_delete_file_guards [("a;b".data, "data".data)] "a;b".data 3).2
     "data".data (by decide) (by decide)⟩

/-! ## Scan techniques and `parse_scan_types` (src/main.rs lines 802–831) -/

/-- The `ScanType` variants (declared in models.rs and enumerated one-to-one
by the `match` in `parse_scan_types`). -/
inductive ScanType where
  | Syn
  | Ssl
  | Udp
  | Ack
  | Fin
  | Xmas
  | Null
  | Window
  | TlsEcho
  | Mimic
  | Frag
  | DnsTunnel
  | IcmpTunnel
deriving DecidableEq

/-- Rust `str::split(',')`: split on every comma, keeping empty pieces. -/
def splitOnComma : RStr → List RStr
  | [] => [[]]
  | c :: rest =>
    if c = ',' then [] :: splitOnComma rest
    else
      match splitOnComma rest with
      | [] => [[c]]
      | t :: ts => (c :: t) :: ts

/-- Rust `str::trim` composed with `str::to_lowercase`, applied to each token
before matching. -/
def normalizeToken (s : RStr) : RStr :=
  (((s.dropWhile Char.isWhitespace).reverse.dropWhile Char.isWhitespace).reverse).map
    Char.toLower

/-- The per-token `match` of `parse_scan_types`. -/
def scan_type_of_token (s : RStr) : Option ScanType :=
  if s = "syn".data then some .Syn
  else if s = "ssl".data then some .Ssl
  else if s = "udp".data then some .Udp
  else if s = "ack".data then some .Ack
  else if s = "fin".data then some .Fin
  else if s = "xmas".data then some .Xmas
  else if s = "null".data then some .Null
  else if s = "window".data then some .Window
  else if s = "tls-echo".data ∨ s = "tls_echo".data then some .TlsEcho
  else if s = "mimic".data then some .Mimic
  else if s = "frag".data then some .Frag
  else if s = "dns-tunnel".data ∨ s = "dns_tunnel".data then some .DnsTunnel
  else if s = "icmp-tunnel".data ∨ s = "icmp_tunnel".data then some .IcmpTunnel
  else none

/-- The token loop of `parse_scan_types`: the first unrecognized token aborts
with an error naming that token. -/
def parse_scan_types_aux : List RStr → Except RStr (List ScanType)
  | [] => .ok []
  | t :: ts =>
    match scan_type_of_token (normalizeToken t) with
    | none => .error ("Invalid scan type: ".data ++ normalizeToken t)
    | some st =>
      match parse_scan_types_aux ts with
      | .error e => .error e
      | .ok rest => .ok (st :: rest)

/-- Embedding of `parse_scan_types`: split on commas, match each trimmed
lower-cased token, and reject an empty result list. -/
def parse_scan_types (s : RStr) : Except RStr (List ScanType) :=
  match parse_scan_types_aux (splitOnComma s) with
  | .error e => .error e
  | .ok l => if l.isEmpty then .error "No valid scan types provided".data else .ok l

theorem splitOnComma_ne_nil (s : RStr) : splitOnComma s ≠ [] := by
  cases s with
  | nil => simp [splitOnComma]
  | cons c rest =>
    by_cases h : c = ','
    · simp [splitOnComma, h]
    · cases hsplit : splitOnComma rest with
      | nil => simp [splitOnComma, h, hsplit]
      | cons t ts => simp [splitOnComma, h, hsplit]

/-- Test for the `error` constructor of `Except`. -/
def isError : Except ε α → Bool
  | .error _ => true
  | .ok _ => false

theorem parse_scan_types_aux_isError (ts : List RStr) :
    isError (parse_scan_types_aux ts) = true
      ↔ ∃ t ∈ ts, scan_type_of_token (normalizeToken t) = none := by
  induction ts with
  | nil => simp [parse_scan_types_aux, isError]
  | cons t ts ih =>
    cases htok : scan_type_of_token (normalizeToken t) with
    | none =>
      simp [parse_scan_types_aux, htok, isError]
    | some st =>
      cases haux : parse_scan_types_aux ts with
      | error e =>
        rw [haux] at ih
        simp [parse_scan_types_aux, htok, haux, isError] at ih ⊢
        tauto
      | ok l =>
        rw [haux] at ih
        simp [parse_scan_types_aux, htok, haux, isError] at ih ⊢
        tauto

theorem parse_scan_types_aux_length (ts : List RStr) (l : List ScanType)
    (h : parse_scan_types_aux ts = .ok l) : l.length = ts.length := by
  induction ts generalizing l with
  | nil =>
    simp [parse_scan_types_aux] at h
    simp [← h]
  | cons t ts ih =>
    cases htok : scan_type_of_token (normalizeToken t) with
    | none => simp [parse_scan_types_aux, htok] at h
    | some st =>
      cases haux : parse_scan_types_aux ts with
      | error e => simp [parse_scan_types_aux, htok, haux] at h
      | ok rest =>
        simp [parse_scan_types_aux, htok, haux] at h
        simp [← h, ih rest haux]

theorem parse_scan_types_isError_iff (s : RStr) :
    isError (parse_scan_types s) = true
      ↔ ∃ t ∈ splitOnComma s, scan_type_of_token (normalizeToken t) = none := by
  rw [← parse_scan_types_aux_isError]
  cases haux : parse_scan_types_aux (splitOnComma s) with
  | error e => simp [parse_scan_types, haux, isError]
  | ok l =>
    have hlen := parse_scan_types_aux_length (splitOnComma s) l haux
    have hne : ¬ l.isEmpty = true := by
      intro hemp
      exact splitOnComma_ne_nil s
        (List.length_eq_zero.mp (hlen ▸ List.isEmpty_iff_length_eq_zero.mp hemp))
    simp [parse_scan_types, haux, isError, hne]

theorem parse_scan_types_ok_ne_nil (s : RStr) (l : List ScanType)
    (h : parse_scan_types s = .ok l) : l ≠ [] := by
  unfold parse_scan_types at h
  cases haux : parse_scan_types_aux (splitOnComma s) with
  | error e =>
    rw [haux] at h
    exact absurd h (by simp)
  | ok l0 =>
    rw [haux] at h
    by_cases hemp : l0.isEmpty
    · simp [hemp] at h
    · simp [hemp] at h
      intro hnil
      rw [hnil] at h
      rw [h] at hemp
      exact hemp rfl

/-! ## The start-up control flow of `main` (src/main.rs lines 833–1060)

`main_flow` embeds the decisions `main` takes between argument parsing and
the call to `run_scan`, in source order:

1. `--fix-log-file` short-circuits into `fix_redacted_log` (lines 843–856).
2. With `random_delay` set, `thread_rng().gen_range(0..max_delay)` is drawn
   (lines 909–917); the Rust call panics when `max_delay = 0` because the
   range is empty.
3. A zero `rate` is replaced by `thread_rng().gen_range(100..500)`
   (lines 919–924).
4. Port selection (lines 972–999): `TopPorts::top_10`, `TopPorts::top_100`
   and `PortRange::parse` live in the absent `models.rs`, so the outcome of
   port selection is taken as the input `portsResult`; a parse failure or an
   empty port list calls `process::exit(1)`.
5. `parse_scan_types` (line 1002); its error propagates out of `main` via
   `?`, which yields a non-zero exit code.
6. The raw-socket privilege gate (lines 1005–1010):
   `scanner::requires_raw_sockets` lives in the absent `scanner.rs`, so it is
   taken as the input function `needsRaw`; `check_privileges` is the input
   `privileged`.
7. `run_scan` (line 1055) executes with the technique list parsed at step 5 —
   the `scan` outcome records that list.  The pushes of `DnsTunnel` /
   `IcmpTunnel` guarded by `--dns-tunnel` / `--icmp-tunnel` occur only at
   lines 1176–1182, after `run_scan` has returned; the `scan` outcome records
   the post-scan list separately (`post_scan_tunnel_push`).

Fields of `Args` that influence none of the modelled decisions (output and
logging flags, fragmentation sizes, …) are omitted. -/

/-- The command-line arguments relevant to the modelled control flow. -/
structure Args where
  target : RStr
  fix_log_file : Option RStr
  random_delay : Bool
  max_delay : Nat
  rate : Nat
  scan_types_str : RStr
  enhanced_evasion : Bool
  ttl_jitter : Nat
  dns_tunnel : Bool
  icmp_tunnel : Bool

/-- Clap-level acceptance of the `--ttl-jitter` value: the field is a plain
`u8` (src/main.rs lines 172–174), so exactly the integers 0–255 are accepted;
no further validation occurs anywhere in `main`. -/
def ttl_jitter_cli_accepts (n : Nat) : Bool := n ≤ 255

/-- Lines 919–924: a configured rate of 0 is replaced by
`thread_rng().gen_range(100..500)`. -/
def randomize_rate (rate draw : Nat) : Nat :=
  if rate = 0 then 100 + draw % 400 else rate

/-- Lines 909–917: the pre-scan delay `thread_rng().gen_range(0..max_delay)`;
`none` models the panic of `gen_range` on the empty range `0..0`. -/
def random_delay_draw (maxDelay draw : Nat) : Option Nat :=
  if maxDelay = 0 then none else some (draw % maxDelay)

/-- Lines 1176–1182: after `run_scan` has returned, `DnsTunnel` and
`IcmpTunnel` are appended to the local technique list when the corresponding
flag is set and the technique is not already present. -/
def post_scan_tunnel_push (args : Args) (ts : List ScanType) : List ScanType :=
  let ts1 := if args.dns_tunnel && !(ts.contains ScanType.DnsTunnel)
             then ts ++ [ScanType.DnsTunnel] else ts
  if args.icmp_tunnel && !(ts1.contains ScanType.IcmpTunnel)
  then ts1 ++ [ScanType.IcmpTunnel] else ts1

/-- Outcome of `main` up to and including the `run_scan` call. -/
inductive MainOutcome where
  | fixLog (res : Except RStr (Nat × FS))
  | panic
  | configError
  | scan (techniques postScanTechniques : List ScanType) (rate ttlJitter : Nat)

/-- The configuration checks of `main` between the pre-scan delay and
`run_scan` (steps 3–7 above). -/
def main_flow_checks (args : Args) (portsResult : Except Unit (List Nat))
    (privileged : Bool) (needsRaw : List ScanType → Bool)
    (rateDraw : Nat) : MainOutcome :=
  let rate := randomize_rate args.rate rateDraw
  match portsResult with
  | .error _ => .configError
  | .ok ports =>
    if ports.isEmpty then .configError
    else
      match parse_scan_types args.scan_types_str with
      | .error _ => .configError
      | .ok scanTypes =>
        if needsRaw scanTypes && !privileged then .configError
        else .scan scanTypes (post_scan_tunnel_push args scanTypes) rate
               args.ttl_jitter

/-- The start-up control flow of `main` (steps 1–7 above). -/
def main_flow (args : Args) (fs : FS) (portsResult : Except Unit (List Nat))
    (privileged : Bool) (needsRaw : List ScanType → Bool)
    (delayDraw rateDraw : Nat) : MainOutcome :=
  match args.fix_log_file with
  | some p => .fixLog (fix_redacted_log fs p args.target)
  | none =>
    match (if args.random_delay
           then random_delay_draw args.max_delay delayDraw
           else some 0) with
    | none => .panic
    | some _ => main_flow_checks args portsResult privileged needsRaw rateDraw

theorem main_flow_checks_configError (args : Args)
    (portsResult : Except Unit (List Nat)) (privileged : Bool)
    (needsRaw : List ScanType → Bool) (rateDraw : Nat)
    (hbad : (∃ e, portsResult = .error e)
      ∨ portsResult = .ok []
      ∨ isError (parse_scan_types args.scan_types_str) = true
      ∨ (∃ ts, parse_scan_types args.scan_types_str = .ok ts
           ∧ needsRaw ts = true ∧ privileged = false)) :
    main_flow_checks args portsResult privileged needsRaw rateDraw
      = .configError := by
  rcases hbad with ⟨e, he⟩ | hemp | herr | ⟨ts, hts, hnr, hpriv⟩
  · simp [main_flow_checks, he]
  · simp [main_flow_checks, hemp]
  · cases portsResult with
    | error e => simp [main_flow_checks]
    | ok ports =>
      by_cases hp : ports.isEmpty
      · simp [main_flow_checks, hp]
      · cases hparse : parse_scan_types args.scan_types_str with
        | error e => simp [main_flow_checks, hp, hparse]
        | ok l => rw [hparse] at herr; simp [isError] at herr
  · cases portsResult with
    | error e => simp [main_flow_checks]
    | ok ports =>
      by_cases hp : ports.isEmpty
      · simp [main_flow_checks, hp]
      · simp [main_flow_checks, hp, hts, hnr, hpriv]

/-- C2: an invocation with an invalid configuration (port parse failure,
empty port list, or an unrecognized scan-type token) or a raw-socket scan
without the needed privilege never reaches `run_scan`: `main` ends in
`process::exit(1)`, an error return, or the pre-scan panic — all non-zero
exits.  Moreover `parse_scan_types` errs exactly when some comma-separated
token fails to normalize to a recognized technique name, and a successful
parse never yields an empty technique list. -/
theorem main_config_errors_abort :
    (∀ (args : Args) (fs : FS) (portsResult : Except Unit (List Nat))
       (privileged : Bool) (needsRaw : List ScanType → Bool) (d1 d2 : Nat),
       args.fix_log_file = none →
       ((∃ e, portsResult = .error e)
         ∨ portsResult = .ok []
         ∨ isError (parse_scan_types args.scan_types_str) = true
         ∨ (∃ ts, parse_scan_types args.scan_types_str = .ok ts
              ∧ needsRaw ts = true ∧ privileged = false)) →
       main_flow args fs portsResult privileged needsRaw d1 d2 = .configError
         ∨ main_flow args fs portsResult privileged needsRaw d1 d2 = .panic)
    ∧ (∀ s : RStr, isError (parse_scan_types s) = true
         ↔ ∃ t ∈ splitOnComma s, scan_type_of_token (normalizeToken t) = none)
    ∧ (∀ (s : RStr) (l : List ScanType), parse_scan_types s = .ok l → l ≠ []) := by
  refine ⟨?_, parse_scan_types_isError_iff, parse_scan_types_ok_ne_nil⟩
  intro args fs portsResult privileged needsRaw d1 d2 hfix hbad
  unfold main_flow
  rw [hfix]
  cases hd : (if args.random_delay
              then random_delay_draw args.max_delay d1
              else some 0) with
  | none => right; rfl
  | some v =>
    left
    exact main_flow_checks_configError args portsResult privileged needsRaw
      d2 hbad

/-- Witness for C2: default arguments with an empty port list, and the
parser characterization at the misspelled technique string `sin`. -/
theorem main_config_errors_abort_witness :
    (main_flow
        { target := "127.0.0.1".data, fix_log_file := none,
          random_delay := false, max_delay := 3, rate := 5,
          scan_types_str := "syn".data, enhanced_evasion := false,
          ttl_jitter := 2, dns_tunnel := false, icmp_tunnel := false }
        [] (.ok []) true (fun _ => true) 0 0 = .configError
      ∨ main_flow
        { target := "127.0.0.1".data, fix_log_file := none,
          random_delay := false, max_delay := 3, rate := 5,
          scan_types_str := "syn".data, enhanced_evasion := false,
          ttl_jitter := 2, dns_tunnel := false, icmp_tunnel := false }
        [] (.ok []) true (fun _ => true) 0 0 = .panic)
    ∧ (isError (parse_scan_types "sin".data) = true
        ↔ ∃ t ∈ splitOnComma "sin".data,
            scan_type_of_token (normalizeToken t) = none)
    ∧ [ScanType.Syn] ≠ [] :=
  ⟨main_config_errors_abort.1 _ [] (.ok []) true (fun _ => true) 0 0 rfl
      (Or.inr (Or.inl rfl)),
   main_config_errors_abort.2.1 "sin".data,
   main_config_errors_abort.2.2 "syn".data [ScanType.Syn] rfl⟩

/-- C3 (code evaluated at the failing input): with `--dns-tunnel` set and
scan types `syn`, `run_scan` executes with technique list `[Syn]` only; the
`DnsTunnel` push happens exclusively in the post-`run_scan` list. -/
theorem dns_tunnel_missing_from_run_scan :
    main_flow
        { target := "10.0.0.1".data, fix_log_file := none,
          random_delay := false, max_delay := 3, rate := 5,
          scan_types_str := "syn".data, enhanced_evasion := false,
          ttl_jitter := 2, dns_tunnel := true, icmp_tunnel := false }
        [] (.ok [80]) true (fun _ => true) 0 0
      = .scan [ScanType.Syn] [ScanType.Syn, ScanType.DnsTunnel] 5 2
    ∧ ScanType.DnsTunnel ∉ [ScanType.Syn] :=
  ⟨rfl, by decide⟩

/-- C4 counterexample: the randomized replacement rate can never be 500, so
the closed interval `[100, 500]` of the spec is not fully reachable. -/
theorem randomize_rate_never_500 : ¬ ∃ d, randomize_rate 0 d = 500 := by
  rintro ⟨d, h⟩
  simp [randomize_rate] at h
  omega

/-- C4 (amended): with `rate = 0` the replacement value is
`100 + draw % 400`, so it always lies in `[100, 499]`, every value of
`[100, 499]` is reachable, and a non-zero configured rate is kept. -/
theorem randomize_rate_bounds :
    (∀ d, 100 ≤ randomize_rate 0 d ∧ randomize_rate 0 d ≤ 499)
    ∧ (∀ v, 100 ≤ v → v ≤ 499 → ∃ d, randomize_rate 0 d = v)
    ∧ (∀ r d, r ≠ 0 → randomize_rate r d = r) := by
  refine ⟨fun d => ?_, fun v h1 h2 => ⟨v - 100, ?_⟩, fun r d hr => ?_⟩
  · simp [randomize_rate]
    omega
  · simp [randomize_rate]
    omega
  · simp [randomize_rate, hr]

/-- Witness for the amended statement of C4 at rate value 123. -/
theorem randomize_rate_bounds_witness :
    (100 ≤ randomize_rate 0 7 ∧ randomize_rate 0 7 ≤ 499)
    ∧ (∃ d, randomize_rate 0 d = 123)
    ∧ randomize_rate 5 7 = 5 :=
  ⟨randomize_rate_bounds.1 7,
   randomize_rate_bounds.2.1 123 (by decide) (by decide),
   randomize_rate_bounds.2.2 5 7 (by decide)⟩

/-- C5 counterexample: with `max_delay = 0` the pre-scan draw fails (the
half-open `gen_range(0..0)` panics), and with `max_delay = 3` the delay value
3 itself is unreachable — both contradict a total uniform draw on the closed
interval `[0, max_delay]`. -/
theorem random_delay_draw_counterexample :
    random_delay_draw 0 0 = none
    ∧ ¬ ∃ d, random_delay_draw 3 d = some 3 := by
  constructor
  · rfl
  · rintro ⟨d, h⟩
    simp [random_delay_draw] at h
    omega

/-- C5 (amended): for `max_delay ≥ 1` the pre-scan draw always succeeds with
a value in `[0, max_delay - 1]` and every such value is reachable; for
`max_delay = 0` the draw panics. -/
theorem random_delay_draw_spec :
    (∀ m d, 0 < m → ∃ v, random_delay_draw m d = some v ∧ v ≤ m - 1)
    ∧ (∀ m v, 0 < m → v ≤ m - 1 → ∃ d, random_delay_draw m d = some v)
    ∧ (∀ d, random_delay_draw 0 d = none) := by
  refine ⟨fun m d hm => ⟨d % m, ?_, ?_⟩, fun m v hm hv => ⟨v, ?_⟩, fun d => rfl⟩
  · simp [random_delay_draw, Nat.pos_iff_ne_zero.mp hm]
  · have := Nat.mod_lt d hm
    omega
  · have hvm : v < m := by omega
    simp [random_delay_draw, Nat.pos_iff_ne_zero.mp hm, Nat.mod_eq_of_lt hvm]

/-- Witness for the amended statement of C5 at `max_delay = 3`. -/
theorem random_delay_draw_spec_witness :
    (∃ v, random_delay_draw 3 7 = some v ∧ v ≤ 2)
    ∧ (∃ d, random_delay_draw 3 d = some 2) :=
  ⟨random_delay_draw_spec.1 3 7 (by decide),
   random_delay_draw_spec.2.1 3 2 (by decide) (by decide)⟩

/-- C7 (code evaluated at the failing input): the command line accepts
`--ttl-jitter 6` — the field is an unconstrained `u8`, contradicting the
documented range 1–5 — and the scan then runs with jitter 6. -/
theorem ttl_jitter_six_accepted :
    ttl_jitter_cli_accepts 6 = true
    ∧ main_flow
        { target := "127.0.0.1".data, fix_log_file := none,
          random_delay := false, max_delay := 3, rate := 5,
          scan_types_str := "syn".data, enhanced_evasion := true,
          ttl_jitter := 6, dns_tunnel := false, icmp_tunnel := false }
        [] (.ok [80]) true (fun _ => true) 0 0
      = .scan [ScanType.Syn] [ScanType.Syn] 5 6 :=
  ⟨rfl, rfl⟩

/-! ## Certificate key-strength labelling (src/output.rs)

Both report paths print the same label next to `public_key_bits`:
`format_text_results` (lines 215–219) emits
`if bits < 2048 { "weak" } else { "strong" }` and `print_detailed_results`
(lines 504–511) styles the identical test.  The `key_algorithm` field of the
certificate is not consulted. -/

/-- The key-strength label the reports attach to the public-key bit
length by `format_text_results` and `print_detailed_results`. -/
def key_strength_label (bits : Nat) : RStr :=
  if bits < 2048 then "weak".data else "strong".data

/-- The weak-key rule of the spec, stated for comparison with
`key_strength_label`: below 2048 bits for RSA keys, below 256 bits for EC
keys. -/
def spec_weak_key (key_algorithm : RStr) (bits : Nat) : Bool :=
  (decide (key_algorithm = "RSA".data) && decide (bits < 2048))
    || (decide (key_algorithm = "EC".data) && decide (bits < 256))

/-- C6 counterexample: a 256-bit EC key is not weak under the rule of the spec,
yet the report labels it `weak`. -/
theorem key_strength_label_ec256 :
    key_strength_label 256 = "weak".data
    ∧ spec_weak_key "EC".data 256 = false := by decide

/-- C6 (amended): the report labels a key `weak` exactly when its bit length
is below 2048, irrespective of the key algorithm, and `strong` otherwise. -/
theorem key_strength_label_iff (bits : Nat) :
    (key_strength_label bits = "weak".data ↔ bits < 2048)
    ∧ (key_strength_label bits = "strong".data ↔ 2048 ≤ bits) := by
  constructor
  · constructor
    · intro hw
      by_contra hge
      push_neg at hge
      rw [key_strength_label, if_neg (by omega)] at hw
      exact absurd hw (by decide)
    · intro h
      rw [key_strength_label, if_pos h]
  · constructor
    · intro hs
      by_contra hlt
      push_neg at hlt
      rw [key_strength_label, if_pos hlt] at hs
      exact absurd hs (by decide)
    · intro h
      rw [key_strength_label, if_neg (by omega)]

/-! ## JSON serialization of scan results (src/output.rs lines 21–30)

`save_json_results` serializes a `ScanResults` value with `serde_json`.  The
`ScanResults` type and its derived `Serialize`/`Deserialize` instances live in
the absent `models.rs`, so the data model below is modelled from the spec
(§3 Data Model) and from the field accesses in `src/output.rs`; the
serializer/deserializer pair is modelled at the level of the JSON document
tree, with maps rendered as arrays of key/value pairs and timestamps as
integers. -/

/-- A JSON document. -/
inductive Json where
  | null
  | bool (b : Bool)
  | num (n : Int)
  | str (s : RStr)
  | arr (elems : List Json)
  | obj (fields : List (RStr × Json))

/-- Test for the `null` document. -/
def jsonIsNull : Json → Bool
  | .null => true
  | _ => false

def encStr (s : RStr) : Json := .str s

def decStr : Json → Option RStr
  | .str s => some s
  | _ => none

def encNat (n : Nat) : Json := .num n

def decNat : Json → Option Nat
  | .num i => some i.toNat
  | _ => none

def encInt (n : Int) : Json := .num n

def decInt : Json → Option Int
  | .num i => some i
  | _ => none

/-- Serialize an optional value; `None` becomes JSON `null`. -/
def encOpt (enc : α → Json) : Option α → Json
  | none => .null
  | some a => enc a

/-- Deserialize an optional value. -/
def decOpt (dec : Json → Option α) (j : Json) : Option (Option α) :=
  if jsonIsNull j then some none else (dec j).map some

def encList (enc : α → Json) (xs : List α) : Json := .arr (xs.map enc)

def decListAux (dec : Json → Option α) : List Json → Option (List α)
  | [] => some []
  | j :: js =>
    match dec j with
    | none => none
    | some a =>
      match decListAux dec js with
      | none => none
      | some as => some (a :: as)

def decList (dec : Json → Option α) : Json → Option (List α)
  | .arr js => decListAux dec js
  | _ => none

/-- Serialize a pair as a two-element array. -/
def encPair (encA : α → Json) (encB : β → Json) (p : α × β) : Json :=
  .arr [encA p.1, encB p.2]

def decPair (decA : Json → Option α) (decB : Json → Option β) :
    Json → Option (α × β)
  | .arr [ja, jb] =>
    match decA ja with
    | none => none
    | some a =>
      match decB jb with
      | none => none
      | some b => some (a, b)
  | _ => none

theorem decStr_encStr (s : RStr) : decStr (encStr s) = some s := rfl

theorem decNat_encNat (n : Nat) : decNat (encNat n) = some n := by
  simp [encNat, decNat]

theorem decInt_encInt (n : Int) : decInt (encInt n) = some n := rfl

theorem decOpt_encOpt {enc : α → Json} {dec : Json → Option α}
    (hnn : ∀ a, jsonIsNull (enc a) = false)
    (h : ∀ a, dec (enc a) = some a) (x : Option α) :
    decOpt dec (encOpt enc x) = some x := by
  cases x with
  | none => rfl
  | some a => simp [encOpt, decOpt, hnn a, h a]

theorem decListAux_map {enc : α → Json} {dec : Json → Option α}
    (xs : List α) (h : ∀ a ∈ xs, dec (enc a) = some a) :
    decListAux dec (xs.map enc) = some xs := by
  induction xs with
  | nil => rfl
  | cons a as ih =>
    simp only [List.map_cons, decListAux, h a (by simp)]
    rw [ih (fun b hb => h b (by simp [hb]))]

theorem decList_encList {enc : α → Json} {dec : Json → Option α}
    (xs : List α) (h : ∀ a ∈ xs, dec (enc a) = some a) :
    decList dec (encList enc xs) = some xs := by
  simp only [encList, decList]
  exact decListAux_map xs h

theorem decPair_encPair {encA : α → Json} {decA : Json → Option α}
    {encB : β → Json} {decB : Json → Option β}
    (hA : ∀ a, decA (encA a) = some a) (hB : ∀ b, decB (encB b) = some b)
    (p : α × β) :
    decPair decA decB (encPair encA encB p) = some p := by
  obtain ⟨a, b⟩ := p
  simp [encPair, decPair, hA a, hB b]

/-- Serialize a `ScanType` as its variant name, as serde does for a plain
enum. -/
def encScanType : ScanType → Json
  | .Syn => .str "Syn".data
  | .Ssl => .str "Ssl".data
  | .Udp => .str "Udp".data
  | .Ack => .str "Ack".data
  | .Fin => .str "Fin".data
  | .Xmas => .str "Xmas".data
  | .Null => .str "Null".data
  | .Window => .str "Window".data
  | .TlsEcho => .str "TlsEcho".data
  | .Mimic => .str "Mimic".data
  | .Frag => .str "Frag".data
  | .DnsTunnel => .str "DnsTunnel".data
  | .IcmpTunnel => .str "IcmpTunnel".data

def decScanType : Json → Option ScanType
  | .str s =>
    if s = "Syn".data then some .Syn
    else if s = "Ssl".data then some .Ssl
    else if s = "Udp".data then some .Udp
    else if s = "Ack".data then some .Ack
    else if s = "Fin".data then some .Fin
    else if s = "Xmas".data then some .Xmas
    else if s = "Null".data then some .Null
    else if s = "Window".data then some .Window
    else if s = "TlsEcho".data then some .TlsEcho
    else if s = "Mimic".data then some .Mimic
    else if s = "Frag".data then some .Frag
    else if s = "DnsTunnel".data then some .DnsTunnel
    else if s = "IcmpTunnel".data then some .IcmpTunnel
    else none
  | _ => none

theorem decScanType_encScanType (t : ScanType) :
    decScanType (encScanType t) = some t := by
  cases t <;> rfl

/-- Modelled from the spec: the `PortStatus` variants of §3 Data Model (the
type is declared in the absent `models.rs`; `Open`, `OpenFiltered` and the
rest are matched on in `src/output.rs`). -/
inductive PortStatus where
  | Open
  | Closed
  | Filtered
  | OpenFiltered
  | Unfiltered
  | Unknown
deriving DecidableEq

def encPortStatus : PortStatus → Json
  | .Open => .str "Open".data
  | .Closed => .str "Closed".data
  | .Filtered => .str "Filtered".data
  | .OpenFiltered => .str "OpenFiltered".data
  | .Unfiltered => .str "Unfiltered".data
  | .Unknown => .str "Unknown".data

def decPortStatus : Json → Option PortStatus
  | .str s =>
    if s = "Open".data then some .Open
    else if s = "Closed".data then some .Closed
    else if s = "Filtered".data then some .Filtered
    else if s = "OpenFiltered".data then some .OpenFiltered
    else if s = "Unfiltered".data then some .Unfiltered
    else if s = "Unknown".data then some .Unknown
    else none
  | _ => none

theorem decPortStatus_encPortStatus (st : PortStatus) :
    decPortStatus (encPortStatus st) = some st := by
  cases st <;> rfl

/-- Modelled from the spec: the TLS Certificate record of §3 Data Model
(subject, issuer, validity bounds, signature algorithm, public-key algorithm
and bit length, alternative names); the concrete struct lives in the absent
`models.rs`, its fields are read in `src/output.rs` as `cert.subject`,
`cert.issuer`, `cert.not_before`, `cert.not_after`,
`cert.signature_algorithm`, `cert.key_algorithm`, `cert.public_key_bits`,
`cert.alt_names`. -/
structure CertInfo where
  subject : RStr
  issuer : RStr
  not_before : Int
  not_after : Int
  signature_algorithm : RStr
  key_algorithm : Option RStr
  public_key_bits : Option Nat
  alt_names : List RStr
deriving DecidableEq

def encCertInfo (c : CertInfo) : Json :=
  .obj [("subject".data, encStr c.subject),
        ("issuer".data, encStr c.issuer),
        ("not_before".data, encInt c.not_before),
        ("not_after".data, encInt c.not_after),
        ("signature_algorithm".data, encStr c.signature_algorithm),
        ("key_algorithm".data, encOpt encStr c.key_algorithm),
        ("public_key_bits".data, encOpt encNat c.public_key_bits),
        ("alt_names".data, encList encStr c.alt_names)]

def decCertInfo : Json → Option CertInfo
  | .obj [(k1, v1), (k2, v2), (k3, v3), (k4, v4),
          (k5, v5), (k6, v6), (k7, v7), (k8, v8)] =>
    if k1 = "subject".data ∧ k2 = "issuer".data ∧ k3 = "not_before".data
       ∧ k4 = "not_after".data ∧ k5 = "signature_algorithm".data
       ∧ k6 = "key_algorithm".data ∧ k7 = "public_key_bits".data
       ∧ k8 = "alt_names".data then
      (decStr v1).bind fun subject =>
      (decStr v2).bind fun issuer =>
      (decInt v3).bind fun nb =>
      (decInt v4).bind fun na =>
      (decStr v5).bind fun sa =>
      (decOpt decStr v6).bind fun ka =>
      (decOpt decNat v7).bind fun pkb =>
      (decList decStr v8).bind fun an =>
      some ⟨subject, issuer, nb, na, sa, ka, pkb, an⟩
    else none
  | _ => none

theorem decOptStr_rt (x : Option RStr) :
    decOpt decStr (encOpt encStr x) = some x :=
  @decOpt_encOpt RStr encStr decStr (fun _ => rfl) decStr_encStr x

theorem decOptNat_rt (x : Option Nat) :
    decOpt decNat (encOpt encNat x) = some x :=
  @decOpt_encOpt Nat encNat decNat (fun _ => rfl) decNat_encNat x

theorem decListStr_rt (xs : List RStr) :
    decList decStr (encList encStr xs) = some xs :=
  decList_encList xs (fun a _ => decStr_encStr a)

theorem decCertInfo_encCertInfo (c : CertInfo) :
    decCertInfo (encCertInfo c) = some c := by
  obtain ⟨s, i, nb, na, sa, ka, pkb, an⟩ := c
  simp [encCertInfo, decCertInfo, decStr_encStr, decInt_encInt,
        decOptStr_rt, decOptNat_rt, decListStr_rt]

/-- Modelled from the spec: the Port Record of §3 Data Model (the concrete
`PortResult` struct lives in the absent `models.rs`); the fields are those
read in `src/output.rs`: `tcp_states`, `udp_state`, `filtering`, `banner`,
`cert_info`, `service`, `version`, `anomalies`, `service_details`,
`timing_analysis`, `vulns`, `security_posture`. -/
structure PortResult where
  tcp_states : List (ScanType × PortStatus)
  udp_state : Option PortStatus
  filtering : Option RStr
  banner : Option RStr
  cert_info : Option CertInfo
  service : Option RStr
  version : Option RStr
  anomalies : List RStr
  service_details : Option (List (RStr × RStr))
  timing_analysis : Option RStr
  vulns : List RStr
  security_posture : Option RStr
deriving DecidableEq

def encPortResult (r : PortResult) : Json :=
  .obj [("tcp_states".data, encList (encPair encScanType encPortStatus) r.tcp_states),
        ("udp_state".data, encOpt encPortStatus r.udp_state),
        ("filtering".data, encOpt encStr r.filtering),
        ("banner".data, encOpt encStr r.banner),
        ("cert_info".data, encOpt encCertInfo r.cert_info),
        ("service".data, encOpt encStr r.service),
        ("version".data, encOpt encStr r.version),
        ("anomalies".data, encList encStr r.anomalies),
        ("service_details".data,
          encOpt (encList (encPair encStr encStr)) r.service_details),
        ("timing_analysis".data, encOpt encStr r.timing_analysis),
        ("vulns".data, encList encStr r.vulns),
        ("security_posture".data, encOpt encStr r.security_posture)]

def decPortResult : Json → Option PortResult
  | .obj [(k1, v1), (k2, v2), (k3, v3), (k4, v4), (k5, v5), (k6, v6),
          (k7, v7), (k8, v8), (k9, v9), (k10, v10), (k11, v11), (k12, v12)] =>
    if k1 = "tcp_states".data ∧ k2 = "udp_state".data ∧ k3 = "filtering".data
       ∧ k4 = "banner".data ∧ k5 = "cert_info".data ∧ k6 = "service".data
       ∧ k7 = "version".data ∧ k8 = "anomalies".data
       ∧ k9 = "service_details".data ∧ k10 = "timing_analysis".data
       ∧ k11 = "vulns".data ∧ k12 = "security_posture".data then
      (decList (decPair decScanType decPortStatus) v1).bind fun tcp =>
      (decOpt decPortStatus v2).bind fun udp =>
      (decOpt decStr v3).bind fun filt =>
      (decOpt decStr v4).bind fun ban =>
      (decOpt decCertInfo v5).bind fun cert =>
      (decOpt decStr v6).bind fun srv =>
      (decOpt decStr v7).bind fun ver =>
      (decList decStr v8).bind fun anom =>
      (decOpt (decList (decPair decStr decStr)) v9).bind fun det =>
      (decOpt decStr v10).bind fun tim =>
      (decList decStr v11).bind fun vul =>
      (decOpt decStr v12).bind fun pos =>
      some ⟨tcp, udp, filt, ban, cert, srv, ver, anom, det, tim, vul, pos⟩
    else none
  | _ => none

theorem decTcpStates_rt (xs : List (ScanType × PortStatus)) :
    decList (decPair decScanType decPortStatus)
      (encList (encPair encScanType encPortStatus) xs) = some xs :=
  decList_encList xs (fun p _ =>
    decPair_encPair decScanType_encScanType decPortStatus_encPortStatus p)

theorem decOptPortStatus_rt (x : Option PortStatus) :
    decOpt decPortStatus (encOpt encPortStatus x) = some x :=
  @decOpt_encOpt PortStatus encPortStatus decPortStatus
    (fun a => by cases a <;> rfl) decPortStatus_encPortStatus x

theorem decOptCertInfo_rt (x : Option CertInfo) :
    decOpt decCertInfo (encOpt encCertInfo x) = some x :=
  @decOpt_encOpt CertInfo encCertInfo decCertInfo
    (fun _ => rfl) decCertInfo_encCertInfo x

theorem decListPairStr_rt (xs : List (RStr × RStr)) :
    decList (decPair decStr decStr) (encList (encPair encStr encStr) xs)
      = some xs :=
  decList_encList xs (fun p _ => decPair_encPair decStr_encStr decStr_encStr p)

theorem decOptListPairStr_rt (x : Option (List (RStr × RStr))) :
    decOpt (decList (decPair decStr decStr))
      (encOpt (encList (encPair encStr encStr)) x) = some x :=
  @decOpt_encOpt (List (RStr × RStr)) (encList (encPair encStr encStr))
    (decList (decPair decStr decStr)) (fun _ => rfl) decListPairStr_rt x

theorem decPortResult_encPortResult (r : PortResult) :
    decPortResult (encPortResult r) = some r := by
  obtain ⟨tcp, udp, filt, ban, cert, srv, ver, anom, det, tim, vul, pos⟩ := r
  simp [encPortResult, decPortResult, decTcpStates_rt, decOptPortStatus_rt,
        decOptStr_rt, decOptCertInfo_rt, decListStr_rt, decOptListPairStr_rt]

/-- Modelled from the spec: the Scan Result record of §3 Data Model (the
concrete `ScanResults` struct serialized by `save_json_results` lives in the
absent `models.rs`); the fields are those read in `src/output.rs` and
`src/main.rs`: `target`, `target_ip`, `start_time`, `end_time`,
`scan_types`, `results`, `open_ports`, `packets_sent`, `successful_scans`,
`os_summary`, `risk_assessment`, `service_categories`.  The port map and the
open-port set are modelled as lists, timestamps as integers. -/
structure ScanResults where
  target : RStr
  target_ip : RStr
  start_time : Int
  end_time : Int
  scan_types : List ScanType
  results : List (Nat × PortResult)
  open_ports : List Nat
  packets_sent : Nat
  successful_scans : Nat
  os_summary : Option RStr
  risk_assessment : Option RStr
  service_categories : Option (List (RStr × List Nat))
deriving DecidableEq

/-- The JSON document `save_json_results` writes for a scan result. -/
def scanResultsToJson (r : ScanResults) : Json :=
  .obj [("target".data, encStr r.target),
        ("target_ip".data, encStr r.target_ip),
        ("start_time".data, encInt r.start_time),
        ("end_time".data, encInt r.end_time),
        ("scan_types".data, encList encScanType r.scan_types),
        ("results".data, encList (encPair encNat encPortResult) r.results),
        ("open_ports".data, encList encNat r.open_ports),
        ("packets_sent".data, encNat r.packets_sent),
        ("successful_scans".data, encNat r.successful_scans),
        ("os_summary".data, encOpt encStr r.os_summary),
        ("risk_assessment".data, encOpt encStr r.risk_assessment),
        ("service_categories".data,
          encOpt (encList (encPair encStr (encList encNat)))
            r.service_categories)]

/-- Deserialization of the document written by `scanResultsToJson`. -/
def scanResultsFromJson : Json → Option ScanResults
  | .obj [(k1, v1), (k2, v2), (k3, v3), (k4, v4), (k5, v5), (k6, v6),
          (k7, v7), (k8, v8), (k9, v9), (k10, v10), (k11, v11), (k12, v12)] =>
    if k1 = "target".data ∧ k2 = "target_ip".data ∧ k3 = "start_time".data
       ∧ k4 = "end_time".data ∧ k5 = "scan_types".data ∧ k6 = "results".data
       ∧ k7 = "open_ports".data ∧ k8 = "packets_sent".data
       ∧ k9 = "successful_scans".data ∧ k10 = "os_summary".data
       ∧ k11 = "risk_assessment".data ∧ k12 = "service_categories".data then
      (decStr v1).bind fun tgt =>
      (decStr v2).bind fun ip =>
      (decInt v3).bind fun st =>
      (decInt v4).bind fun et =>
      (decList decScanType v5).bind fun sts =>
      (decList (decPair decNat decPortResult) v6).bind fun res =>
      (decList decNat v7).bind fun op =>
      (decNat v8).bind fun ps =>
      (decNat v9).bind fun ss =>
      (decOpt decStr v10).bind fun os =>
      (decOpt decStr v11).bind fun risk =>
      (decOpt (decList (decPair decStr (decList decNat))) v12).bind fun cats =>
      some ⟨tgt, ip, st, et, sts, res, op, ps, ss, os, risk, cats⟩
    else none
  | _ => none

theorem decListScanType_rt (xs : List ScanType) :
    decList decScanType (encList encScanType xs) = some xs :=
  decList_encList xs (fun a _ => decScanType_encScanType a)

theorem decResultsMap_rt (xs : List (Nat × PortResult)) :
    decList (decPair decNat decPortResult)
      (encList (encPair encNat encPortResult) xs) = some xs :=
  decList_encList xs (fun p _ =>
    decPair_encPair decNat_encNat decPortResult_encPortResult p)

theorem decListNat_rt (xs : List Nat) :
    decList decNat (encList encNat xs) = some xs :=
  decList_encList xs (fun a _ => decNat_encNat a)

theorem decCategories_rt (xs : List (RStr × List Nat)) :
    decList (decPair decStr (decList decNat))
      (encList (encPair encStr (encList encNat)) xs) = some xs :=
  decList_encList xs (fun p _ =>
    decPair_encPair decStr_encStr decListNat_rt p)

theorem decOptCategories_rt (x : Option (List (RStr × List Nat))) :
    decOpt (decList (decPair decStr (decList decNat)))
      (encOpt (encList (encPair encStr (encList encNat))) x) = some x :=
  @decOpt_encOpt (List (RStr × List Nat))
    (encList (encPair encStr (encList encNat)))
    (decList (decPair decStr (decList decNat)))
    (fun _ => rfl) decCategories_rt x

/-- C8: deserializing the JSON document produced for any `ScanResults` value
yields the original value. -/
theorem scanResults_json_roundtrip (r : ScanResults) :
    scanResultsFromJson (scanResultsToJson r) = some r := by
  obtain ⟨tgt, ip, st, et, sts, res, op, ps, ss, os, risk, cats⟩ := r
  simp [scanResultsToJson, scanResultsFromJson, decStr_encStr, decInt_encInt,
        decNat_encNat, decListScanType_rt, decResultsMap_rt, decListNat_rt,
        decOptStr_rt, decOptCategories_rt]
